import Mathlib

/-!
Verification of the InterviewAgent voice core against its design specification.

The Python sources are shallowly embedded:
* bytes become `List Nat` (each element an octet value),
* `int.from_bytes(_, "big", signed)` becomes `u32be` / `i32be`,
* Python slices (with clamping and negative indices) become `pySlice` / `pyDropFrom`,
* fallible operations become `Except PyError _`, where `PyError` stands for the
  Python exception that would propagate out of the function,
* the gzip / json / utf-8 library calls are parameters of the embedding
  (`gz`, `js`, `us`): the claims analysed here never depend on their internals,
  only on which branches invoke them.
-/

namespace InterviewAgent

/-- Python exceptions that can escape the embedded functions.
`indexError` models `IndexError` from out-of-range `bytes` indexing;
the others model failures of `gzip.decompress`, `json.loads`, `str(_, "utf-8")`. -/
inductive PyError where
  | indexError
  | gzipError
  | jsonError
  | strError
deriving DecidableEq, Repr

/-- Clamped bound of a Python slice over a sequence of length `n`
(negative values count from the end, everything is clamped into `[0, n]`). -/
def sliceBound (n : Nat) (i : Int) : Nat :=
  let j : Int := if i < 0 then i + n else i
  (max 0 (min j (n : Int))).toNat

/-- Python slice `xs[a:b]` (step 1). -/
def pySlice {α : Type} (xs : List α) (a b : Int) : List α :=
  (xs.take (sliceBound xs.length b)).drop (sliceBound xs.length a)

/-- Python slice `xs[a:]` (step 1). -/
def pyDropFrom {α : Type} (xs : List α) (a : Int) : List α :=
  xs.drop (sliceBound xs.length a)

/-- Python `xs[i]` on `bytes`: raises `IndexError` when out of range. -/
def indexByte (xs : List Nat) (i : Nat) : Except PyError Nat :=
  match xs.get? i with
  | some v => .ok v
  | none => .error .indexError

/-- Python `int.from_bytes(bs, "big", signed=False)`. -/
def u32be (bs : List Nat) : Nat :=
  bs.foldl (fun acc b => acc * 256 + b) 0

/-- Python `int.from_bytes(bs, "big", signed=True)` (two's complement). -/
def i32be (bs : List Nat) : Int :=
  let n := u32be bs
  if 256 ^ bs.length ≤ 2 * n then (n : Int) - 256 ^ bs.length else (n : Int)

/-- Python `int(n).to_bytes(4, "big")` (callers only pass values `< 2^32`). -/
def u32beBytes (n : Nat) : List Nat :=
  [n / 16777216 % 256, n / 65536 % 256, n / 256 % 256, n % 256]

/-! ## Frame codec (`voice_protocol.py`)

Protocol constants, copied from the module header of the source. -/

def PROTOCOL_VERSION : Nat := 1
def CLIENT_FULL_REQUEST : Nat := 1
def CLIENT_AUDIO_ONLY_REQUEST : Nat := 2
def SERVER_FULL_RESPONSE : Nat := 9
def SERVER_ACK : Nat := 11
def SERVER_ERROR_RESPONSE : Nat := 15
def NEG_SEQUENCE : Nat := 2
def MSG_WITH_EVENT : Nat := 4
def NO_SERIALIZATION : Nat := 0
def JSON : Nat := 1
def GZIP : Nat := 1

/-- The decoded payload of a `VoiceMessage` after the optional decompression
and deserialization steps of `parse_response`.  `J` is the abstract result type
of `json.loads`. -/
inductive PayloadVal (J : Type) where
  | pvNone
  | pvBytes (b : List Nat)
  | pvJson (j : J)
  | pvStr (s : String)
deriving DecidableEq, Repr

/-- `VoiceMessage` dataclass.  `sessionId` keeps the sliced session-id bytes
(the source additionally wraps them in Python `str(...)`, producing a repr
string; no claim depends on that wrapping).  `seq` is a `Nat` because the
source reads it with `signed=False`. -/
structure VoiceMessage (J : Type) where
  messageType : String
  payloadMsg : PayloadVal J
  sessionId : List Nat
  event : Option Nat
  seq : Option Nat
  code : Option Nat
  payloadSize : Nat
deriving DecidableEq, Repr

/-- The `VoiceMessage(message_type="UNKNOWN")` default object of the source. -/
def unknownMessage (J : Type) : VoiceMessage J :=
  ⟨"UNKNOWN", .pvNone, [], none, none, none, 0⟩

/-- Common tail of `parse_response`: decompress when the compression nibble is
GZIP, then deserialize according to the serialization nibble. -/
def decodePayload {J : Type} (gz : List Nat → Option (List Nat))
    (js : List Nat → Option J) (us : List Nat → Option String)
    (serial comp : Nat) (raw : List Nat) : Except PyError (PayloadVal J) := do
  let bytes1 ←
    if comp = GZIP then
      match gz raw with
      | some r => Except.ok r
      | none => Except.error PyError.gzipError
    else Except.ok raw
  if serial = JSON then
    match js bytes1 with
    | some j => Except.ok (.pvJson j)
    | none => Except.error PyError.jsonError
  else if serial ≠ NO_SERIALIZATION then
    match us bytes1 with
    | some s => Except.ok (.pvStr s)
    | none => Except.error PyError.strError
  else Except.ok (.pvBytes bytes1)

/-- `VoiceProtocolHandler.parse_response`.  Faithful translation: server
full-response/ack frames read an optional sequence word and an optional event
word (both from `payload[:4]`, exactly as the source does), then the signed
session-id length, the session-id slice `payload[4:session_id_size]`, and the
length-prefixed payload; error frames read a code and a length-prefixed
payload; every other message type yields the UNKNOWN message untouched. -/
def parseResponse {J : Type} (gz : List Nat → Option (List Nat))
    (js : List Nat → Option J) (us : List Nat → Option String)
    (responseData : List Nat) : Except PyError (VoiceMessage J) := do
  let b0 ← indexByte responseData 0
  let b1 ← indexByte responseData 1
  let b2 ← indexByte responseData 2
  let _reserved ← indexByte responseData 3
  let headerSize := b0 % 16
  let messageType := b1 / 16
  let flags := b1 % 16
  let serializationMethod := b2 / 16
  let messageCompression := b2 % 16
  let payload := responseData.drop (headerSize * 4)
  if messageType = SERVER_FULL_RESPONSE ∨ messageType = SERVER_ACK then
    let mt := if messageType = SERVER_ACK then "SERVER_ACK" else "SERVER_FULL_RESPONSE"
    let seqStart : Option Nat × Nat :=
      if flags &&& NEG_SEQUENCE > 0 then (some (u32be (payload.take 4)), 4)
      else (none, 0)
    let eventStart : Option Nat × Nat :=
      if flags &&& MSG_WITH_EVENT > 0 then (some (u32be (payload.take 4)), seqStart.2 + 4)
      else (none, seqStart.2)
    let payload1 := payload.drop eventStart.2
    let sessionIdSize := i32be (payload1.take 4)
    let sessionId := pySlice payload1 4 sessionIdSize
    let payload2 := pyDropFrom payload1 (4 + sessionIdSize)
    let payloadSize := u32be (payload2.take 4)
    let payloadBytes := payload2.drop 4
    let pv ← decodePayload gz js us serializationMethod messageCompression payloadBytes
    Except.ok ⟨mt, pv, sessionId, eventStart.1, seqStart.1, none, payloadSize⟩
  else if messageType = SERVER_ERROR_RESPONSE then
    let codev := u32be (payload.take 4)
    let payloadSize := u32be ((payload.drop 4).take 4)
    let payloadBytes := payload.drop 8
    let pv ← decodePayload gz js us serializationMethod messageCompression payloadBytes
    Except.ok ⟨"SERVER_ERROR", pv, [], none, none, some codev, payloadSize⟩
  else
    Except.ok (unknownMessage J)

/-- `VoiceProtocolHandler.generate_header` (the extension bytes are appended
after the four fixed bytes; `x <<< 4 ||| y` is written `x * 16 + y` since both
nibbles are below 16 at every call site). -/
def generateHeaderBytes (version messageType flags serialMethod compressionType
    reservedData : Nat) (extensionHeader : List Nat) : List Nat :=
  let headerSize := extensionHeader.length / 4 + 1
  [version * 16 + headerSize, messageType * 16 + flags,
   serialMethod * 16 + compressionType, reservedData] ++ extensionHeader

/-- `generate_header()` with all defaults, as used by `create_session_request`. -/
def defaultHeader : List Nat :=
  generateHeaderBytes PROTOCOL_VERSION CLIENT_FULL_REQUEST MSG_WITH_EVENT JSON GZIP 0 []

/-- `VoiceProtocolHandler.create_session_request`.  `payloadBytes` stands for
`gzip.compress(json.dumps(config))`, already serialized and compressed. -/
def createSessionRequest (sessionId payloadBytes : List Nat) : List Nat :=
  defaultHeader ++ u32beBytes 100 ++ u32beBytes sessionId.length ++ sessionId ++
    u32beBytes payloadBytes.length ++ payloadBytes

/-- `VoiceProtocolHandler.create_audio_request`; `gzCompress` stands for
`gzip.compress`. -/
def createAudioRequest (gzCompress : List Nat → List Nat)
    (sessionId audioData : List Nat) : List Nat :=
  let payloadBytes := gzCompress audioData
  generateHeaderBytes PROTOCOL_VERSION CLIENT_AUDIO_ONLY_REQUEST MSG_WITH_EVENT
      NO_SERIALIZATION GZIP 0 [] ++
    u32beBytes 200 ++ u32beBytes sessionId.length ++ sessionId ++
    u32beBytes payloadBytes.length ++ payloadBytes

/-- Concrete stand-in for `gzip.decompress` used in closed evaluations. -/
def exGz : List Nat → Option (List Nat) := fun b => some b

/-- Concrete stand-in for `json.loads` used in closed evaluations. -/
def exJs : List Nat → Option Unit := fun _ => none

/-- Concrete stand-in for `str(_, "utf-8")` used in closed evaluations. -/
def exUs : List Nat → Option String := fun _ => none

/-- The UTF-8 bytes of the session id `"s1"`. -/
def s1Bytes : List Nat := [115, 49]

/-- A representative compressed-payload byte string (stands for
`gzip.compress(json.dumps({"tts":{"sample_rate":24000}}))`). -/
def examplePayload : List Nat := [31, 139, 8, 0, 42]

/-- C1, counterexample: decoding the bytes produced by the session-start
encoder `create_session_request` (session id `"s1"`) with `parse_response`
does NOT return the original frame: the result is the UNKNOWN message with
`event = None` and an empty session id, not a session-start message with
`event=100` and `session_id="s1"` — `parse_response` only decodes server
message types (9, 11, 15) while the encoder emits client type 1. -/
theorem c1_roundtrip_counterexample :
    Except.map (fun m => (m.messageType, m.event, m.sessionId))
        (parseResponse exGz exJs exUs (createSessionRequest s1Bytes examplePayload)) =
      .ok ("UNKNOWN", none, []) ∧
    (some 100 : Option Nat) ≠ none ∧ "UNKNOWN" ≠ "SERVER_FULL_RESPONSE" := by
  refine ⟨rfl, by decide, by decide⟩

/-- C1 (amended): for every session id and every serialized-compressed
payload, `parse_response` applied to the output of `create_session_request`
returns the UNKNOWN message with no event, no sequence, empty session id and
no payload, because the frame carries the client full-request message type,
which `parse_response` does not decode.  The round-trip claimed by the
specification does not hold. -/
theorem c1_parse_of_createSessionRequest_unknown {J : Type}
    (gz : List Nat → Option (List Nat)) (js : List Nat → Option J)
    (us : List Nat → Option String) (sid pb : List Nat) :
    parseResponse gz js us (createSessionRequest sid pb) = .ok (unknownMessage J) := rfl

/-- C2 (amended): for every byte sequence of fewer than 4 bytes,
`parse_response` raises an uncaught `IndexError` while reading the four header
bytes — it does not fail with a `MalformedFrame` error (no such error exists
in the code). -/
theorem c2_parse_short_input_indexError {J : Type}
    (gz : List Nat → Option (List Nat)) (js : List Nat → Option J)
    (us : List Nat → Option String) (data : List Nat) (h : data.length < 4) :
    parseResponse gz js us data = .error .indexError := by
  match data with
  | [] => rfl
  | [a] => rfl
  | [a, b] => rfl
  | [a, b, c] => rfl
  | a :: b :: c :: d :: t => simp at h; omega

/-- Witness for `c2_parse_short_input_indexError` at the empty byte string. -/
theorem c2_parse_short_input_indexError_witness :
    ([] : List Nat).length < 4 ∧
      parseResponse exGz exJs exUs [] = .error .indexError :=
  ⟨by decide, c2_parse_short_input_indexError exGz exJs exUs [] (by decide)⟩

/-- C2, counterexample: decoding fewer than 4 bytes raises an uncaught
`IndexError` rather than failing with a `MalformedFrame` error, and a 4-byte
truncation of a previously encoded frame is decoded without any error at all
(as the UNKNOWN message) — both refute the claimed `MalformedFrame` failure
behaviour. -/
theorem c2_malformedframe_counterexample :
    parseResponse exGz exJs exUs [] = .error .indexError ∧
      parseResponse exGz exJs exUs
          ((createSessionRequest s1Bytes examplePayload).take 4) =
        .ok (unknownMessage Unit) :=
  ⟨rfl, rfl⟩

/-- A server full-response frame whose flags declare both a sequence and an
event (`flags = NEG_SEQUENCE ||| MSG_WITH_EVENT = 6`), with no compression and
no serialization.  The first optional 4-byte word carries `a`, the second
carries `b`; then a zero session-id length and a zero payload length. -/
def bothFlagsFrame (a b : Nat) : List Nat :=
  generateHeaderBytes PROTOCOL_VERSION SERVER_FULL_RESPONSE (NEG_SEQUENCE + MSG_WITH_EVENT)
      NO_SERIALIZATION 0 0 [] ++
    u32beBytes a ++ u32beBytes b ++ u32beBytes 0 ++ u32beBytes 0

/-- Big-endian 4-byte encode/decode round-trip for values below `2^32`. -/
theorem u32be_u32beBytes (a : Nat) (h : a < 4294967296) : u32be (u32beBytes a) = a := by
  simp [u32be, u32beBytes, List.foldl]
  omega

/-- C3 (amended): when a decoded server frame declares both an event and a
sequence, `parse_response` reads BOTH `seq` and `event` from the same first
optional 4-byte word (both as unsigned big-endian integers; the source passes
`signed=False` and never advances the read offset between the two reads), then
skips 8 bytes.  The second word is never assigned to either field. -/
theorem c3_seq_event_same_word {J : Type}
    (gz : List Nat → Option (List Nat)) (js : List Nat → Option J)
    (us : List Nat → Option String) (a b : Nat) (ha : a < 4294967296) :
    Except.map (fun m => (m.seq, m.event)) (parseResponse gz js us (bothFlagsFrame a b)) =
      .ok (some a, some a) := by
  have h1 : parseResponse gz js us (bothFlagsFrame a b) =
      Except.ok ⟨"SERVER_FULL_RESPONSE", .pvBytes [], [], some (u32be (u32beBytes a)),
        some (u32be (u32beBytes a)), none, 0⟩ := rfl
  rw [h1]
  simp [Except.map, u32be_u32beBytes a ha]

/-- Witness for `c3_seq_event_same_word` at first word `4294967295`, second
word `7`. -/
theorem c3_seq_event_same_word_witness :
    4294967295 < 4294967296 ∧
      Except.map (fun m => (m.seq, m.event))
          (parseResponse exGz exJs exUs (bothFlagsFrame 4294967295 7)) =
        .ok (some 4294967295, some 4294967295) :=
  ⟨by norm_num, c3_seq_event_same_word exGz exJs exUs 4294967295 7 (by norm_num)⟩

/-- C3, counterexample: in a frame carrying event word `4294967295` (first
optional word) and sequence word `7` (second optional word), `parse_response`
assigns `seq = 4294967295` — the unsigned value of the FIRST word — instead of
the claimed signed value `7` of the sequence's own word. -/
theorem c3_sequence_counterexample :
    Except.map (fun m => m.seq) (parseResponse exGz exJs exUs (bothFlagsFrame 4294967295 7)) =
      .ok (some 4294967295) ∧ (some 4294967295 : Option Nat) ≠ some 7 :=
  ⟨rfl, by decide⟩

/-! ## Transport client (`voice_client.py`)

Sending is modelled as a pure function from the client's connection flags to
either the bytes handed to `ws.send` or the Python exception that escapes. -/

structure ClientState where
  isConnected : Bool
  isSessionStarted : Bool
deriving DecidableEq, Repr

/-- Exceptions raised by `send_audio` / `send_text`. `notActive` is the
`raise Exception("会话未启动")` guard; `attributeError` is the `AttributeError`
from calling `VoiceProtocolHandler.create_tts_request`, a method that is not
defined anywhere in the repository. -/
inductive SendErr where
  | notActive
  | attributeError
deriving DecidableEq, Repr

/-- `VoiceServiceClient.send_audio`: guard on both connection flags, then send
the frame built by `create_audio_request`. -/
def sendAudio (gzCompress : List Nat → List Nat) (st : ClientState)
    (sessionId audioData : List Nat) : Except SendErr (List Nat) :=
  if !st.isConnected || !st.isSessionStarted then .error .notActive
  else .ok (createAudioRequest gzCompress sessionId audioData)

/-- `VoiceServiceClient.send_text`: same guard, then the call
`VoiceProtocolHandler.create_tts_request(...)` — the attribute does not exist,
so the call raises `AttributeError`, which the surrounding handler logs and
re-raises. -/
def sendText (st : ClientState) (_text : String) : Except SendErr (List Nat) :=
  if !st.isConnected || !st.isSessionStarted then .error .notActive
  else .error .attributeError

/-! ## Audio session manager (`voice_audio_manager.py`) -/

/-- Value of the `'audio'` entry of a decoded payload dictionary: either raw
bytes, or a base64 string together with the result of `base64.b64decode`
(`none` models a decode failure, which makes the handler return early). -/
inductive MAudio where
  | abytes (b : List Nat)
  | astr (raw : String) (decoded : Option (List Nat))
deriving DecidableEq, Repr

/-- The `payload_msg` shapes `_handle_voice_message` inspects.  A dictionary
is modelled by the three entries the handler reads (`'result'`, `'audio'`,
`'error'`); `errorRecreate = some b` means the dict has an `'error'` entry
whose text contains `"recreate session"` iff `b`. -/
inductive MPayload where
  | pnone
  | pdict (result : Option String) (audio : Option MAudio) (errorRecreate : Option Bool)
  | pbytes (b : List Nat)
  | pstr (s : String)
deriving DecidableEq, Repr

/-- The `message_type` strings `_handle_voice_message` dispatches on. -/
inductive MType where
  | fullResponse
  | ack
  | serverError
  | unknownType
deriving DecidableEq, Repr

structure MgrMsg where
  mtype : MType
  payload : MPayload
deriving DecidableEq, Repr

/-- The manager state touched by `_handle_voice_message`: the playback FIFO
`audio_queue` (chunks are appended at the tail and taken from the head by
`_audio_player_loop`), the client's `is_session_started` flag, whether a
`_recreate_session` coroutine has been scheduled, and which callbacks are
registered. -/
structure MgrState where
  audioQueue : List (List Nat)
  sessionStarted : Bool
  recreateScheduled : Bool
  hasAudioCallback : Bool
deriving DecidableEq, Repr

/-- Python truthiness of `message.payload_msg` (a dict is truthy iff it has
entries; only the entries the handler reads are modelled). -/
def mpayloadTruthy : MPayload → Bool
  | .pnone => false
  | .pdict r a e => r.isSome || a.isSome || e.isSome
  | .pbytes b => !b.isEmpty
  | .pstr s => !s.isEmpty

/-- Python truthiness of the `'audio'` dict entry before decoding. -/
def maudioTruthy : MAudio → Bool
  | .abytes b => !b.isEmpty
  | .astr raw _ => !raw.isEmpty

/-- `IntegratedVoiceSession._handle_voice_message`, restricted to its effect
on the manager state.  Full responses append a decoded audio chunk to the
playback queue (when the payload carries one and an audio callback is
registered), ACKs append raw byte payloads, server errors matching
`"recreate session"` clear `is_session_started` and schedule
`_recreate_session`.  No branch ever removes chunks from the queue. -/
def handleVoiceMessage (st : MgrState) (msg : MgrMsg) : MgrState :=
  match msg.mtype with
  | .fullResponse =>
    if mpayloadTruthy msg.payload then
      match msg.payload with
      | .pdict _result audio _err =>
        match audio with
        | some av =>
          if maudioTruthy av && st.hasAudioCallback then
            match av with
            | .abytes b => {st with audioQueue := st.audioQueue ++ [b]}
            | .astr _ none => st
            | .astr _ (some d) => {st with audioQueue := st.audioQueue ++ [d]}
          else st
        | none => st
      | .pbytes b => {st with audioQueue := st.audioQueue ++ [b]}
      | _ => st
    else st
  | .ack =>
    match msg.payload with
    | .pbytes b => {st with audioQueue := st.audioQueue ++ [b]}
    | _ => st
  | .serverError =>
    match msg.payload with
    | .pdict _ _ (some true) => {st with sessionStarted := false, recreateScheduled := true}
    | _ => st
  | .unknownType => st

/-! ### Session recreation (`IntegratedVoiceSession._recreate_session`) -/

/-- Outcome of `_recreate_session`.  `raisedSessionRecoveryFailed` is the
behaviour the specification predicts on exhaustion; the translation of the
source never produces it — the source logs the failure and returns `False`. -/
inductive RecOutcome where
  | recovered (attempt : Nat)
  | returnedFalse
  | raisedSessionRecoveryFailed
deriving DecidableEq, Repr

structure RecResult where
  outcome : RecOutcome
  isRecording : Bool
  backoffsWaited : List Nat
deriving DecidableEq, Repr

/-- One `for attempt in range(max_retries)` iteration chain.  Each iteration:
sets `is_recording = False`, disconnects, sleeps `retry_delay` seconds,
creates a fresh client (new session id), connects and starts the session
(`oracle attempt` gives the two success booleans); on success restores
`is_recording` iff PyAudio is available and returns `True`; on failure doubles
the delay and continues.  After the loop the source returns `False`. -/
def recreateGo (pyaudioAvailable : Bool) (oracle : Nat → Bool × Bool) :
    Nat → Nat → Nat → RecResult
  | 0, _delay, _attempt => ⟨.returnedFalse, false, []⟩
  | fuel + 1, delay, attempt =>
    let tryv := oracle attempt
    if tryv.1 && tryv.2 then ⟨.recovered (attempt + 1), pyaudioAvailable, [delay]⟩
    else
      let r := recreateGo pyaudioAvailable oracle fuel (delay * 2) (attempt + 1)
      ⟨r.outcome, r.isRecording, delay :: r.backoffsWaited⟩

/-- `_recreate_session` with `max_retries = 3` and `retry_delay = 1.0`. -/
def recreateSession (pyaudioAvailable : Bool) (oracle : Nat → Bool × Bool) : RecResult :=
  recreateGo pyaudioAvailable oracle 3 1 0

/-! ### Cooperative stop (`IntegratedVoiceSession.stop`) -/

/-- The flags and background-work counters `stop` touches.
`clientConnected`/`wsActive` are `voice_client.is_connected` / `.ws`, the
condition of the receive loop; the two counters record submissions of the
`disconnect` task and of the blocking device-cleanup executor job. -/
structure SessionFlags where
  isRunning : Bool
  isRecording : Bool
  isPlaying : Bool
  clientConnected : Bool
  wsActive : Bool
  disconnectSubmitted : Nat
  cleanupSubmitted : Nat
deriving DecidableEq, Repr

/-- `IntegratedVoiceSession.stop`: clear the three loop flags, submit the
client disconnect as a task when the client is connected, submit the blocking
device cleanup to the executor, and return `True` immediately — neither
submission is awaited. -/
def stopSession (st : SessionFlags) : SessionFlags × Bool :=
  let st1 := {st with isRunning := false, isRecording := false, isPlaying := false}
  let st2 :=
    if st1.clientConnected then {st1 with disconnectSubmitted := st1.disconnectSubmitted + 1}
    else st1
  ({st2 with cleanupSubmitted := st2.cleanupSubmitted + 1}, true)

/-- Loop guard of `_audio_player_loop` (`while self.is_playing`). -/
def playerLoopContinues (st : SessionFlags) : Bool := st.isPlaying

/-- Loop guard of `_audio_recorder_loop`
(`while self.is_recording and self.is_running`). -/
def recorderLoopContinues (st : SessionFlags) : Bool := st.isRecording && st.isRunning

/-- Loop guard of `VoiceServiceClient.receive_messages`
(`while self.is_connected and self.ws`). -/
def receiveLoopContinues (st : SessionFlags) : Bool := st.clientConnected && st.wsActive

/-- Effect of the background `disconnect()` task once it runs: clears
`is_connected` and `ws` (its `finally` block). -/
def runBackgroundDisconnect (st : SessionFlags) : SessionFlags :=
  {st with clientConnected := false, wsActive := false}

/-- C4: `send_audio` and `send_text` fail with the not-active error whenever
the connection is down or the session is inactive; when active, `send_audio`
sends the `create_audio_request` frame, whose second header byte declares the
audio-only message kind, whose third header byte declares no structured
serialization together with GZIP compression, and whose tail after the
12-byte-plus-session-id prefix is the length-prefixed compressed payload.
`send_text`, however, never sends a text-to-speech frame: when active it
raises `AttributeError`, because `VoiceProtocolHandler.create_tts_request`
does not exist (code bug — the claim describes the evident intent). -/
theorem c4_send_guards_and_tts_bug :
    (∀ gzC st sid audio t, st.isConnected = false ∨ st.isSessionStarted = false →
      sendAudio gzC st sid audio = .error .notActive ∧ sendText st t = .error .notActive) ∧
    (∀ gzC (sid audio : List Nat),
      sendAudio gzC ⟨true, true⟩ sid audio = .ok (createAudioRequest gzC sid audio) ∧
      (createAudioRequest gzC sid audio).get? 1 =
        some (CLIENT_AUDIO_ONLY_REQUEST * 16 + MSG_WITH_EVENT) ∧
      (createAudioRequest gzC sid audio).get? 2 = some (NO_SERIALIZATION * 16 + GZIP) ∧
      (createAudioRequest gzC sid audio).drop (12 + sid.length) =
        u32beBytes (gzC audio).length ++ gzC audio) ∧
    (∀ t, sendText ⟨true, true⟩ t = .error .attributeError) := by
  refine ⟨?_, ?_, ?_⟩
  · intro gzC st sid audio t h
    rcases st with ⟨c, s⟩
    rcases h with h | h <;> subst h <;> simp [sendAudio, sendText]
  · intro gzC sid audio
    refine ⟨rfl, rfl, rfl, ?_⟩
    have e1 : createAudioRequest gzC sid audio =
        ([17, 36, 1, 0, 0, 0, 0, 200] ++ u32beBytes sid.length ++ sid) ++
          (u32beBytes (gzC audio).length ++ gzC audio) := by
      simp [createAudioRequest, generateHeaderBytes, u32beBytes, CLIENT_AUDIO_ONLY_REQUEST,
        PROTOCOL_VERSION, MSG_WITH_EVENT, NO_SERIALIZATION, GZIP]
    have e2 : ([17, 36, 1, 0, 0, 0, 0, 200] ++ u32beBytes sid.length ++ sid).length =
        12 + sid.length := by
      simp [u32beBytes]
      omega
    rw [e1, ← e2, List.drop_left]
  · intro t
    rfl

/-- Witness for `c4_send_guards_and_tts_bug`: a disconnected client rejects
both sends with the not-active error. -/
theorem c4_send_guards_and_tts_bug_witness :
    (false = false ∨ false = false) ∧
      sendAudio id ⟨false, false⟩ s1Bytes [9] = .error .notActive ∧
      sendText ⟨false, false⟩ "hello" = .error .notActive :=
  ⟨Or.inl rfl, c4_send_guards_and_tts_bug.1 id ⟨false, false⟩ s1Bytes [9] "hello" (Or.inl rfl)⟩

/-- C9 (amended): no server event ever flushes the playback queue —
`_handle_voice_message` only appends chunks (at most one per message) and
never removes any; the queue is drained solely by `_audio_player_loop` taking
chunks one at a time. -/
theorem c9_playback_queue_never_flushed (st : MgrState) (msg : MgrMsg) :
    ((handleVoiceMessage st msg).audioQueue = st.audioQueue ∨
      ∃ b, (handleVoiceMessage st msg).audioQueue = st.audioQueue ++ [b]) ∧
    st.audioQueue.length ≤ (handleVoiceMessage st msg).audioQueue.length := by
  have shape : (handleVoiceMessage st msg).audioQueue = st.audioQueue ∨
      ∃ b, (handleVoiceMessage st msg).audioQueue = st.audioQueue ++ [b] := by
    rcases msg with ⟨mt, p⟩
    cases mt
    case fullResponse =>
      rcases p with _ | ⟨r, a, e⟩ | b | s
      · exact .inl rfl
      · rcases a with _ | av
        · simp only [handleVoiceMessage]
          split <;> simp
        · rcases av with b | ⟨raw, d⟩
          · simp only [handleVoiceMessage]
            split
            · split
              · exact .inr ⟨b, rfl⟩
              · exact .inl rfl
            · exact .inl rfl
          · rcases d with _ | d
            · simp only [handleVoiceMessage]
              split <;> [skip; exact .inl rfl]
              split <;> exact .inl rfl
            · simp only [handleVoiceMessage]
              split
              · split
                · exact .inr ⟨d, rfl⟩
                · exact .inl rfl
              · exact .inl rfl
      · simp only [handleVoiceMessage]
        split
        · exact .inr ⟨b, rfl⟩
        · exact .inl rfl
      · simp only [handleVoiceMessage]
        split <;> exact .inl rfl
    case ack =>
      rcases p with _ | ⟨r, a, e⟩ | b | s <;> simp [handleVoiceMessage]
    case serverError =>
      rcases p with _ | ⟨r, a, e⟩ | b | s <;> simp [handleVoiceMessage]
      rcases e with _ | b
      · simp
      · cases b <;> simp
    case unknownType =>
      exact .inl rfl
  refine ⟨shape, ?_⟩
  rcases shape with h | ⟨b, h⟩ <;> rw [h] <;> simp

/-- A manager state with five chunks queued for playback. -/
def fiveChunks : MgrState := ⟨[[1], [2], [3], [4], [5]], true, false, true⟩

/-- C9, counterexample: delivering a server message while 5 chunks are queued
leaves all 5 chunks in the playback queue — there is no event that discards
queued-but-unplayed chunks, so the claimed flush-to-0 behaviour does not
exist. -/
theorem c9_flush_counterexample :
    (handleVoiceMessage fiveChunks ⟨.fullResponse, .pnone⟩).audioQueue.length = 5 ∧
      (5 : Nat) ≠ 0 := ⟨rfl, by decide⟩

/-- A connect/start-session oracle on which every recovery attempt fails. -/
def oracleAllFail : Nat → Bool × Bool := fun _ => (false, false)

/-- A connect/start-session oracle failing on attempt 1 and succeeding on
attempt 2 (0-based attempt index 1). -/
def oracleSecond : Nat → Bool × Bool := fun i => (decide (i = 1), decide (i = 1))

/-- C5 (amended): `_recreate_session` stops capture, disconnects, waits a
doubling backoff (1 s, 2 s, 4 s) before each reconnect, uses a fresh client
(hence a fresh session id) and retries at most 3 times; success on an earlier
attempt restores capture (when PyAudio is available).  Exhausting all attempts
does NOT surface a `SessionRecoveryFailed` error — the source merely logs the
failure and returns `False` (the return value of the fire-and-forget coroutine
is discarded), leaving capture stopped. -/
theorem c5_recreate_session_amended :
    (∀ pyA oracle n, (recreateSession pyA oracle).outcome = .recovered n → n ≤ 3) ∧
    (∀ pyA oracle, (recreateSession pyA oracle).backoffsWaited =
      [1, 2, 4].take (recreateSession pyA oracle).backoffsWaited.length) ∧
    (∀ pyA oracle, (recreateSession pyA oracle).outcome ≠ .raisedSessionRecoveryFailed) ∧
    (∀ pyA oracle, (recreateSession pyA oracle).outcome = .returnedFalse →
      (recreateSession pyA oracle).backoffsWaited = [1, 2, 4] ∧
      (recreateSession pyA oracle).isRecording = false) ∧
    (recreateSession true oracleSecond = ⟨.recovered 2, true, [1, 2]⟩) := by
  have key : ∀ pyA oracle, recreateSession pyA oracle = ⟨.recovered 1, pyA, [1]⟩ ∨
      recreateSession pyA oracle = ⟨.recovered 2, pyA, [1, 2]⟩ ∨
      recreateSession pyA oracle = ⟨.recovered 3, pyA, [1, 2, 4]⟩ ∨
      recreateSession pyA oracle = ⟨.returnedFalse, false, [1, 2, 4]⟩ := by
    intro pyA oracle
    cases h0 : (oracle 0).1 && (oracle 0).2 <;>
      cases h1 : (oracle 1).1 && (oracle 1).2 <;>
        cases h2 : (oracle 2).1 && (oracle 2).2 <;>
          simp [recreateSession, recreateGo, h0, h1, h2]
  refine ⟨?_, ?_, ?_, ?_, ?_⟩
  · intro pyA oracle n h
    rcases key pyA oracle with k | k | k | k <;> (rw [k] at h; simp at h) <;> omega
  · intro pyA oracle
    rcases key pyA oracle with k | k | k | k <;> rw [k] <;> rfl
  · intro pyA oracle
    rcases key pyA oracle with k | k | k | k <;> rw [k] <;> simp
  · intro pyA oracle h
    rcases key pyA oracle with k | k | k | k <;> rw [k] at h ⊢ <;> simp_all
  · rfl

/-- Witness for `c5_recreate_session_amended`: on the always-failing oracle
the recovery gives up after the backoffs 1, 2, 4 with capture stopped. -/
theorem c5_recreate_session_amended_witness :
    (recreateSession true oracleAllFail).outcome = .returnedFalse ∧
      (recreateSession true oracleAllFail).backoffsWaited = [1, 2, 4] ∧
      (recreateSession true oracleAllFail).isRecording = false :=
  ⟨rfl, c5_recreate_session_amended.2.2.2.1 true oracleAllFail rfl⟩

/-- C5, counterexample: when all 3 attempts fail, `_recreate_session` returns
`False` after backoffs 1, 2, 4 — it does not surface a fatal
`SessionRecoveryFailed` to its owner (no such error exists in the code). -/
theorem c5_recovery_failed_counterexample :
    recreateSession true oracleAllFail = ⟨.returnedFalse, false, [1, 2, 4]⟩ ∧
      RecOutcome.returnedFalse ≠ .raisedSessionRecoveryFailed := ⟨rfl, by decide⟩

/-- C10 (amended): `stop()` returns `True` immediately after clearing the
flags observed by the capture and playback loops (which therefore exit at
their next iteration boundary), submitting the client disconnect as a
background task when connected, and submitting the device cleanup to a
background executor — neither is awaited.  The receive loop's own condition
(`is_connected`) is NOT cleared by `stop()` itself; it is cleared only once
the background disconnect runs.  Calling `stop()` again is safe: it returns
`True` and the flags stay cleared. -/
theorem c10_stop_amended (st : SessionFlags) :
    (stopSession st).2 = true ∧
    (stopSession st).1.isRunning = false ∧
    (stopSession st).1.isRecording = false ∧
    (stopSession st).1.isPlaying = false ∧
    playerLoopContinues (stopSession st).1 = false ∧
    recorderLoopContinues (stopSession st).1 = false ∧
    (stopSession st).1.cleanupSubmitted = st.cleanupSubmitted + 1 ∧
    (st.clientConnected = true →
      (stopSession st).1.disconnectSubmitted = st.disconnectSubmitted + 1) ∧
    receiveLoopContinues (runBackgroundDisconnect (stopSession st).1) = false ∧
    (stopSession (stopSession st).1).2 = true ∧
    (stopSession (stopSession st).1).1.isRunning = false ∧
    (stopSession (stopSession st).1).1.isPlaying = false := by
  rcases st with ⟨r, rec, p, c, w, d, cl⟩
  cases c <;>
    simp [stopSession, playerLoopContinues, recorderLoopContinues, receiveLoopContinues,
      runBackgroundDisconnect]

/-- A running session with all flags up and no background work yet. -/
def allOnFlags : SessionFlags := ⟨true, true, true, true, true, 0, 0⟩

/-- Witness for `c10_stop_amended` on a fully running session. -/
theorem c10_stop_amended_witness :
    (stopSession allOnFlags).2 = true ∧
      (stopSession allOnFlags).1.disconnectSubmitted = 0 + 1 :=
  ⟨(c10_stop_amended allOnFlags).1, (c10_stop_amended allOnFlags).2.2.2.2.2.2.2.1 rfl⟩

/-- C10, counterexample: immediately after `stop()` returns, the receive
loop's condition is still true — `stop()` does not set the flag the receive
loop observes (`is_connected`); that flag falls only when the background
disconnect task runs.  This refutes the claim that `stop()` returns after
setting the stop flags observed by all three loops. -/
theorem c10_stop_counterexample :
    receiveLoopContinues (stopSession allOnFlags).1 = true ∧
      (stopSession allOnFlags).1.clientConnected = true ∧ true ≠ false :=
  ⟨rfl, rfl, by decide⟩

/-! ## Dialogue state machine (`intelligent_dialog_manager.py`)

The LLM collaborator is abstracted: `Analysis` carries the two booleans
`_analyze_response` returns, and every utterance the manager produces (via
`add_conversation` or in its returned reply string) is recorded as an
abstract event.  Supervisor-instruction texts are abstracted to the lists of
intent markers the source tests with substring containment
(`"下一个问题"`, `"跳过"`, `"深入"`, `"追问"`). -/

inductive DialogState where
  | initializing
  | greeting
  | questioning
  | listening
  | followingUp
  | supervisorIntervention
  | transitioning
  | closing
  | completed
deriving DecidableEq, Repr

/-- Intent markers of a supervisor instruction text.  `nextQuestionTok` /
`skipTok` model containment of `"下一个问题"` / `"跳过"`; `deepTok` /
`probeTok` model containment of `"深入"` / `"追问"`. -/
inductive IntentTok where
  | nextQuestionTok
  | skipTok
  | deepTok
  | probeTok
  | otherTok
deriving DecidableEq, Repr

/-- One interview section: a name and its ordered questions. -/
structure PlanSection where
  name : String
  questions : List String
deriving DecidableEq, Repr

/-- The two booleans returned by `llm_client.analyze_answer`. -/
structure Analysis where
  needsClarification : Bool
  needsFollowUp : Bool
deriving DecidableEq, Repr

/-- `DialogContext` (the fields the transition logic touches). -/
structure Ctx where
  currentState : DialogState
  currentQuestionIndex : Nat
  currentSectionIndex : Nat
  followUpCount : Nat
  maxFollowUps : Nat
  supervisorInstructions : List (List IntentTok)
deriving DecidableEq, Repr

/-- Observable events of one processing step: every `_update_state` call and
every utterance the manager produces.  Main-question and follow-up utterances
are tagged with the section/question indices current at emission time (the
source records the indices in the `main_question` metadata and the running
count in the `follow_up` metadata). -/
inductive Ev where
  | stateChange (s : DialogState)
  | sayMainQuestion (sectionIdx questionIdx : Nat)
  | sayFollowUp (sectionIdx questionIdx : Nat)
  | sayClarification
  | sayIntervention
  | saySectionTransition (sectionIdx : Nat)
  | sayClosing
  | sayGeneric
  | sayFallback
deriving DecidableEq, Repr

/-- `_get_current_section`. -/
def getCurrentSection (plan : List PlanSection) (ctx : Ctx) : Option PlanSection :=
  plan.get? ctx.currentSectionIndex

/-- `_get_current_question`. -/
def getCurrentQuestion (plan : List PlanSection) (ctx : Ctx) : Option String :=
  match getCurrentSection plan ctx with
  | none => none
  | some sec => sec.questions.get? ctx.currentQuestionIndex

/-- `_close_interview`: enter `CLOSING`, speak the wrap-up script, enter
`COMPLETED`. -/
def closeInterview (ctx : Ctx) : Ctx × List Ev :=
  ({ctx with currentState := .completed},
   [.stateChange .closing, .sayClosing, .stateChange .completed])

/-- `_ask_current_question`: with no current question, close the interview;
otherwise enter `LISTENING`, reset `follow_up_count` and pose the question. -/
def askCurrentQuestion (plan : List PlanSection) (ctx : Ctx) : Ctx × List Ev :=
  match getCurrentQuestion plan ctx with
  | none => closeInterview ctx
  | some _ =>
    ({ctx with currentState := .listening, followUpCount := 0},
     [.stateChange .listening, .sayMainQuestion ctx.currentSectionIndex ctx.currentQuestionIndex])

/-- `_generate_follow_up`: enter `FOLLOWING_UP` and pose a follow-up
question (the count itself is incremented by `_handle_followup_response`). -/
def generateFollowUp (ctx : Ctx) : Ctx × List Ev :=
  ({ctx with currentState := .followingUp},
   [.stateChange .followingUp, .sayFollowUp ctx.currentSectionIndex ctx.currentQuestionIndex])

/-- `_move_to_next_question`: bump the question index; on exhausting the
section's questions bump the section index, reset the question index and (when
another section exists) speak a transition; then pose the now-current question
(which closes the interview when all sections are exhausted). -/
def moveToNextQuestion (plan : List PlanSection) (ctx : Ctx) : Ctx × List Ev :=
  match getCurrentSection plan {ctx with currentQuestionIndex := ctx.currentQuestionIndex + 1} with
  | some sec =>
    if sec.questions.length ≤ ctx.currentQuestionIndex + 1 then
      if ctx.currentSectionIndex + 1 < plan.length then
        ((askCurrentQuestion plan
            {ctx with currentSectionIndex := ctx.currentSectionIndex + 1, currentQuestionIndex := 0}).1,
         .saySectionTransition (ctx.currentSectionIndex + 1) ::
           (askCurrentQuestion plan
             {ctx with currentSectionIndex := ctx.currentSectionIndex + 1, currentQuestionIndex := 0}).2)
      else
        askCurrentQuestion plan
          {ctx with currentSectionIndex := ctx.currentSectionIndex + 1, currentQuestionIndex := 0}
    else askCurrentQuestion plan {ctx with currentQuestionIndex := ctx.currentQuestionIndex + 1}
  | none => askCurrentQuestion plan {ctx with currentQuestionIndex := ctx.currentQuestionIndex + 1}

/-- `_handle_question_response` (state `LISTENING`): clarification requests
keep the state, a needs-follow-up analysis below the `max_follow_ups` bound
generates a follow-up, anything else advances. -/
def handleQuestionResponse (plan : List PlanSection) (a : Analysis) (ctx : Ctx) :
    Ctx × List Ev :=
  match getCurrentQuestion plan ctx with
  | none => closeInterview ctx
  | some _ =>
    if a.needsClarification then (ctx, [.sayClarification])
    else if a.needsFollowUp && decide (ctx.followUpCount < ctx.maxFollowUps) then
      generateFollowUp ctx
    else moveToNextQuestion plan ctx

/-- `_handle_followup_response` (state `FOLLOWING_UP`): increment
`follow_up_count` first; reaching `max_follow_ups` forces advancement
regardless of the analysis; otherwise follow up again or advance.  (When no
current question exists the source's `_analyze_response(None)` raises and
`process_candidate_input` falls back to a generic apology without further
state change.) -/
def handleFollowupResponse (plan : List PlanSection) (a : Analysis) (ctx : Ctx) :
    Ctx × List Ev :=
  if ctx.maxFollowUps ≤ ctx.followUpCount + 1 then
    moveToNextQuestion plan {ctx with followUpCount := ctx.followUpCount + 1}
  else
    match getCurrentQuestion plan {ctx with followUpCount := ctx.followUpCount + 1} with
    | none => ({ctx with followUpCount := ctx.followUpCount + 1}, [.sayFallback])
    | some _ =>
      if a.needsFollowUp then generateFollowUp {ctx with followUpCount := ctx.followUpCount + 1}
      else moveToNextQuestion plan {ctx with followUpCount := ctx.followUpCount + 1}

/-- `_handle_greeting_response`: acknowledge and pose the first question. -/
def handleGreetingResponse (plan : List PlanSection) (ctx : Ctx) : Ctx × List Ev :=
  ((askCurrentQuestion plan {ctx with currentState := .questioning}).1,
   .stateChange .questioning ::
     (askCurrentQuestion plan {ctx with currentState := .questioning}).2)

/-- `_handle_supervisor_intervention`: enter `SUPERVISOR_INTERVENTION`, take
the MOST RECENT instruction (`supervisor_instructions[-1]`), generate exactly
one interviewer utterance, clear the ENTIRE instruction list, then route on
the instruction's intents: move-on/skip forces advancement, deeper-probing
intents force `FOLLOWING_UP`, anything else returns to `LISTENING`. -/
def handleSupervisorIntervention (plan : List PlanSection) (ctx : Ctx) : Ctx × List Ev :=
  match ctx.supervisorInstructions.getLast? with
  | none => (ctx, [])
  | some instr =>
    if instr.contains .nextQuestionTok || instr.contains .skipTok then
      ((moveToNextQuestion plan
          {ctx with currentState := .supervisorIntervention, supervisorInstructions := []}).1,
       Ev.stateChange .supervisorIntervention :: Ev.sayIntervention ::
         (moveToNextQuestion plan
           {ctx with currentState := .supervisorIntervention, supervisorInstructions := []}).2)
    else if instr.contains .deepTok || instr.contains .probeTok then
      ({ctx with currentState := .followingUp, supervisorInstructions := []},
       [.stateChange .supervisorIntervention, .sayIntervention, .stateChange .followingUp])
    else
      ({ctx with currentState := .listening, supervisorInstructions := []},
       [.stateChange .supervisorIntervention, .sayIntervention, .stateChange .listening])

/-- `process_candidate_input`: a non-empty supervisor-instruction backlog is
handled first; otherwise dispatch on the current state (every state other
than greeting/listening/following-up gets the generic acknowledgment). -/
def processCandidateInput (plan : List PlanSection) (a : Analysis) (ctx : Ctx) :
    Ctx × List Ev :=
  if ctx.supervisorInstructions ≠ [] then handleSupervisorIntervention plan ctx
  else
    match ctx.currentState with
    | .greeting => handleGreetingResponse plan ctx
    | .listening => handleQuestionResponse plan a ctx
    | .followingUp => handleFollowupResponse plan a ctx
    | _ => (ctx, [.sayGeneric])

/-- Feed `n` candidate answers, all analysed identically, collecting events. -/
def runInputs (plan : List PlanSection) (a : Analysis) : Ctx → Nat → Ctx × List Ev
  | ctx, 0 => (ctx, [])
  | ctx, n + 1 =>
    ((runInputs plan a (processCandidateInput plan a ctx).1 n).1,
     (processCandidateInput plan a ctx).2 ++
       (runInputs plan a (processCandidateInput plan a ctx).1 n).2)

/-- Number of follow-up questions posed for the question at `(s, q)`. -/
def cntFU (evs : List Ev) (s q : Nat) : Nat := evs.count (.sayFollowUp s q)

/-- A fresh context right after a main question has been posed: `LISTENING`,
`follow_up_count = 0`, no pending supervisor instructions. -/
def initialCtx (m : Nat) : Ctx := ⟨.listening, 0, 0, 0, m, []⟩

/-- The candidate-answer classification "needs follow-up". -/
def allFollowUp : Analysis := ⟨false, true⟩

theorem cntFU_append (evs l : List Ev) (s q : Nat) :
    cntFU (evs ++ l) s q = cntFU evs s q + cntFU l s q := by
  simp [cntFU, List.count_append]

theorem noFU_mem_close (c : Ctx) (s q : Nat) :
    Ev.sayFollowUp s q ∉ (closeInterview c).2 := by
  simp [closeInterview]

theorem noFU_mem_ask (plan : List PlanSection) (c : Ctx) (s q : Nat) :
    Ev.sayFollowUp s q ∉ (askCurrentQuestion plan c).2 := by
  unfold askCurrentQuestion
  split
  · exact noFU_mem_close c s q
  · simp

theorem noFU_mem_move (plan : List PlanSection) (c : Ctx) (s q : Nat) :
    Ev.sayFollowUp s q ∉ (moveToNextQuestion plan c).2 := by
  unfold moveToNextQuestion
  intro hmem
  split at hmem
  · split at hmem
    · split at hmem
      · simp only [List.mem_cons] at hmem
        rcases hmem with h | h
        · exact absurd h (by simp)
        · exact noFU_mem_ask _ _ s q h
      · exact noFU_mem_ask _ _ s q hmem
    · exact noFU_mem_ask _ _ s q hmem
  · exact noFU_mem_ask _ _ s q hmem

theorem cnt_noFU_close (c : Ctx) (s q : Nat) : cntFU (closeInterview c).2 s q = 0 := by
  rw [cntFU, List.count_eq_zero]
  exact noFU_mem_close c s q

theorem cnt_noFU_ask (plan : List PlanSection) (c : Ctx) (s q : Nat) :
    cntFU (askCurrentQuestion plan c).2 s q = 0 := by
  rw [cntFU, List.count_eq_zero]
  exact noFU_mem_ask plan c s q

theorem cnt_noFU_move (plan : List PlanSection) (c : Ctx) (s q : Nat) :
    cntFU (moveToNextQuestion plan c).2 s q = 0 := by
  rw [cntFU, List.count_eq_zero]
  exact noFU_mem_move plan c s q

theorem cnt_genFU (c : Ctx) (s q : Nat) :
    cntFU (generateFollowUp c).2 s q =
      if s = c.currentSectionIndex ∧ q = c.currentQuestionIndex then 1 else 0 := by
  rw [cntFU, generateFollowUp]
  split
  · rename_i h
    rw [h.1, h.2]
    simp [List.count_cons]
  · rename_i h
    rw [List.count_eq_zero]
    intro hmem
    simp at hmem
    exact h ⟨hmem.1, hmem.2⟩

theorem cnt_stMain (x : DialogState) (a b s q : Nat) :
    cntFU [Ev.stateChange x, Ev.sayMainQuestion a b] s q = 0 := by
  rw [cntFU, List.count_eq_zero]
  simp

theorem cnt_trans (k s q : Nat) : cntFU [Ev.saySectionTransition k] s q = 0 := by
  rw [cntFU, List.count_eq_zero]
  simp

def lexLtP (p r : Nat × Nat) : Prop := p.1 < r.1 ∨ (p.1 = r.1 ∧ p.2 < r.2)

theorem lexLtP_trans {p r t : Nat × Nat} (h1 : lexLtP p r) (h2 : lexLtP r t) : lexLtP p t := by
  rcases h1 with h1 | ⟨h1a, h1b⟩ <;> rcases h2 with h2 | ⟨h2a, h2b⟩ <;>
    simp [lexLtP] at * <;> omega

/-- Invariant of the all-needs-follow-up run: per-question follow-up counts
stay below the bound, questions not yet reached have no follow-ups, the
context stays clean, and the count for the current question tracks
`follow_up_count`. -/
structure FUInv (plan : List PlanSection) (m : Nat) (ctx : Ctx) (evs : List Ev) : Prop where
  bound : ∀ s q, cntFU evs s q ≤ m
  future : ∀ s q, lexLtP (ctx.currentSectionIndex, ctx.currentQuestionIndex) (s, q) →
    cntFU evs s q = 0
  maxEq : ctx.maxFollowUps = m
  noInstr : ctx.supervisorInstructions = []
  stateOk : ctx.currentState = .listening ∨ ctx.currentState = .followingUp ∨
    ctx.currentState = .completed
  listenOk : ctx.currentState = .listening → ctx.followUpCount = 0 ∧
    cntFU evs ctx.currentSectionIndex ctx.currentQuestionIndex = 0
  fuOk : ctx.currentState = .followingUp → ctx.followUpCount < m ∧
    cntFU evs ctx.currentSectionIndex ctx.currentQuestionIndex = ctx.followUpCount + 1 ∧
    (getCurrentQuestion plan ctx).isSome

theorem inv_close (plan : List PlanSection) (m : Nat) (ctx : Ctx) (evs : List Ev)
    (hb : ∀ s q, cntFU evs s q ≤ m)
    (hf : ∀ s q, lexLtP (ctx.currentSectionIndex, ctx.currentQuestionIndex) (s, q) →
      cntFU evs s q = 0)
    (hm : ctx.maxFollowUps = m) (hni : ctx.supervisorInstructions = []) :
    FUInv plan m (closeInterview ctx).1 (evs ++ (closeInterview ctx).2) := by
  refine ⟨?_, ?_, hm, hni, Or.inr (Or.inr rfl), ?_, ?_⟩
  · intro s q
    rw [cntFU_append, cnt_noFU_close]
    simpa using hb s q
  · intro s q h
    rw [cntFU_append, cnt_noFU_close]
    simpa using hf s q h
  · intro h
    simp [closeInterview] at h
  · intro h
    simp [closeInterview] at h

theorem inv_ask (plan : List PlanSection) (m : Nat) (ctx : Ctx) (evs : List Ev)
    (hb : ∀ s q, cntFU evs s q ≤ m)
    (hf : ∀ s q, lexLtP (ctx.currentSectionIndex, ctx.currentQuestionIndex) (s, q) →
      cntFU evs s q = 0)
    (hcur : cntFU evs ctx.currentSectionIndex ctx.currentQuestionIndex = 0)
    (hm : ctx.maxFollowUps = m) (hni : ctx.supervisorInstructions = []) :
    FUInv plan m (askCurrentQuestion plan ctx).1 (evs ++ (askCurrentQuestion plan ctx).2) := by
  unfold askCurrentQuestion
  cases hq : getCurrentQuestion plan ctx
  · exact inv_close plan m ctx evs hb hf hm hni
  · refine ⟨?_, ?_, hm, hni, Or.inl rfl, ?_, ?_⟩
    · intro s q
      rw [cntFU_append, cnt_stMain]
      simpa using hb s q
    · intro s q h
      rw [cntFU_append, cnt_stMain]
      simpa using hf s q h
    · intro _
      refine ⟨rfl, ?_⟩
      rw [cntFU_append, cnt_stMain]
      simpa using hcur
    · intro h
      simp at h

theorem inv_ask_pre (plan : List PlanSection) (m : Nat) (ctx : Ctx) (evs pre : List Ev)
    (hpre : ∀ s q, cntFU pre s q = 0)
    (hb : ∀ s q, cntFU evs s q ≤ m)
    (hf : ∀ s q, lexLtP (ctx.currentSectionIndex, ctx.currentQuestionIndex) (s, q) →
      cntFU evs s q = 0)
    (hcur : cntFU evs ctx.currentSectionIndex ctx.currentQuestionIndex = 0)
    (hm : ctx.maxFollowUps = m) (hni : ctx.supervisorInstructions = []) :
    FUInv plan m (askCurrentQuestion plan ctx).1
      (evs ++ (pre ++ (askCurrentQuestion plan ctx).2)) := by
  have h1 := inv_ask plan m ctx (evs ++ pre)
    (fun s q => by rw [cntFU_append, hpre]; simpa using hb s q)
    (fun s q h => by rw [cntFU_append, hpre]; simpa using hf s q h)
    (by rw [cntFU_append, hpre]; simpa using hcur) hm hni
  rwa [List.append_assoc] at h1

theorem move_eq_none (plan : List PlanSection) (ctx : Ctx)
    (hsec : getCurrentSection plan {ctx with currentQuestionIndex := ctx.currentQuestionIndex + 1} = none) :
    moveToNextQuestion plan ctx =
      askCurrentQuestion plan {ctx with currentQuestionIndex := ctx.currentQuestionIndex + 1} := by
  simp only [moveToNextQuestion, hsec]

theorem move_eq_same (plan : List PlanSection) (ctx : Ctx) (sec : PlanSection)
    (hsec : getCurrentSection plan {ctx with currentQuestionIndex := ctx.currentQuestionIndex + 1} = some sec)
    (hlen : ctx.currentQuestionIndex + 1 < sec.questions.length) :
    moveToNextQuestion plan ctx =
      askCurrentQuestion plan {ctx with currentQuestionIndex := ctx.currentQuestionIndex + 1} := by
  simp only [moveToNextQuestion, hsec]
  rw [if_neg (by omega)]

theorem move_eq_next (plan : List PlanSection) (ctx : Ctx) (sec : PlanSection)
    (hsec : getCurrentSection plan {ctx with currentQuestionIndex := ctx.currentQuestionIndex + 1} = some sec)
    (hlen : sec.questions.length ≤ ctx.currentQuestionIndex + 1)
    (hmore : ctx.currentSectionIndex + 1 < plan.length) :
    moveToNextQuestion plan ctx =
      ((askCurrentQuestion plan
          {ctx with currentSectionIndex := ctx.currentSectionIndex + 1, currentQuestionIndex := 0}).1,
       Ev.saySectionTransition (ctx.currentSectionIndex + 1) ::
         (askCurrentQuestion plan
           {ctx with currentSectionIndex := ctx.currentSectionIndex + 1, currentQuestionIndex := 0}).2) := by
  simp only [moveToNextQuestion, hsec]
  rw [if_pos hlen, if_pos hmore]

theorem move_eq_exhaust (plan : List PlanSection) (ctx : Ctx) (sec : PlanSection)
    (hsec : getCurrentSection plan {ctx with currentQuestionIndex := ctx.currentQuestionIndex + 1} = some sec)
    (hlen : sec.questions.length ≤ ctx.currentQuestionIndex + 1)
    (hmore : ¬ ctx.currentSectionIndex + 1 < plan.length) :
    moveToNextQuestion plan ctx =
      askCurrentQuestion plan
        {ctx with currentSectionIndex := ctx.currentSectionIndex + 1, currentQuestionIndex := 0} := by
  simp only [moveToNextQuestion, hsec]
  rw [if_pos hlen, if_neg hmore]

theorem inv_move (plan : List PlanSection) (m : Nat) (ctx : Ctx) (evs : List Ev)
    (hb : ∀ s q, cntFU evs s q ≤ m)
    (hf : ∀ s q, lexLtP (ctx.currentSectionIndex, ctx.currentQuestionIndex) (s, q) →
      cntFU evs s q = 0)
    (hm : ctx.maxFollowUps = m) (hni : ctx.supervisorInstructions = []) :
    FUInv plan m (moveToNextQuestion plan ctx).1 (evs ++ (moveToNextQuestion plan ctx).2) := by
  have hlex1 : lexLtP (ctx.currentSectionIndex, ctx.currentQuestionIndex)
      (ctx.currentSectionIndex, ctx.currentQuestionIndex + 1) :=
    Or.inr ⟨rfl, Nat.lt_succ_self _⟩
  have hlex2 : lexLtP (ctx.currentSectionIndex, ctx.currentQuestionIndex)
      (ctx.currentSectionIndex + 1, 0) := Or.inl (Nat.lt_succ_self _)
  cases hsec : getCurrentSection plan {ctx with currentQuestionIndex := ctx.currentQuestionIndex + 1}
  case none =>
    rw [move_eq_none plan ctx hsec]
    exact inv_ask plan m {ctx with currentQuestionIndex := ctx.currentQuestionIndex + 1} evs hb
      (fun s q h => hf s q (lexLtP_trans hlex1 h)) (hf _ _ hlex1) hm hni
  case some sec =>
    by_cases hlen : sec.questions.length ≤ ctx.currentQuestionIndex + 1
    · by_cases hmore : ctx.currentSectionIndex + 1 < plan.length
      · rw [move_eq_next plan ctx sec hsec hlen hmore]
        exact inv_ask_pre plan m
          {ctx with currentSectionIndex := ctx.currentSectionIndex + 1, currentQuestionIndex := 0}
          evs [Ev.saySectionTransition (ctx.currentSectionIndex + 1)]
          (fun s q => cnt_trans _ s q) hb
          (fun s q h => hf s q (lexLtP_trans hlex2 h)) (hf _ _ hlex2) hm hni
      · rw [move_eq_exhaust plan ctx sec hsec hlen hmore]
        exact inv_ask plan m
          {ctx with currentSectionIndex := ctx.currentSectionIndex + 1, currentQuestionIndex := 0}
          evs hb (fun s q h => hf s q (lexLtP_trans hlex2 h)) (hf _ _ hlex2) hm hni
    · rw [move_eq_same plan ctx sec hsec (by omega)]
      exact inv_ask plan m {ctx with currentQuestionIndex := ctx.currentQuestionIndex + 1} evs hb
        (fun s q h => hf s q (lexLtP_trans hlex1 h)) (hf _ _ hlex1) hm hni

theorem cnt_generic (s q : Nat) : cntFU [Ev.sayGeneric] s q = 0 := by
  rw [cntFU, List.count_eq_zero]
  simp

theorem getCurrentQuestion_fu (plan : List PlanSection) (ctx : Ctx) (k : Nat) :
    getCurrentQuestion plan {ctx with followUpCount := k} = getCurrentQuestion plan ctx := rfl

theorem lexLtP_irrefl (p : Nat × Nat) : ¬ lexLtP p p := by
  simp [lexLtP]

theorem inv_genFU (plan : List PlanSection) (m : Nat) (ctx : Ctx) (evs : List Ev)
    (hb : ∀ s q, cntFU evs s q ≤ m)
    (hf : ∀ s q, lexLtP (ctx.currentSectionIndex, ctx.currentQuestionIndex) (s, q) →
      cntFU evs s q = 0)
    (hcur : cntFU evs ctx.currentSectionIndex ctx.currentQuestionIndex = ctx.followUpCount)
    (hlt : ctx.followUpCount < m)
    (hq : (getCurrentQuestion plan ctx).isSome)
    (hm : ctx.maxFollowUps = m) (hni : ctx.supervisorInstructions = []) :
    FUInv plan m (generateFollowUp ctx).1 (evs ++ (generateFollowUp ctx).2) := by
  refine ⟨?_, ?_, hm, hni, Or.inr (Or.inl rfl), ?_, ?_⟩
  · intro s q
    rw [cntFU_append, cnt_genFU]
    by_cases hsq : s = ctx.currentSectionIndex ∧ q = ctx.currentQuestionIndex
    · rw [if_pos hsq, hsq.1, hsq.2, hcur]
      omega
    · rw [if_neg hsq]
      simpa using hb s q
  · intro s q hlex
    have hne : ¬(s = ctx.currentSectionIndex ∧ q = ctx.currentQuestionIndex) := by
      rintro ⟨e1, e2⟩
      subst e1
      subst e2
      exact lexLtP_irrefl _ hlex
    rw [cntFU_append, cnt_genFU, if_neg hne, hf s q hlex]
  · intro hfalse
    simp [generateFollowUp] at hfalse
  · intro _
    refine ⟨hlt, ?_, hq⟩
    show cntFU (evs ++ (generateFollowUp ctx).2) ctx.currentSectionIndex
      ctx.currentQuestionIndex = ctx.followUpCount + 1
    rw [cntFU_append, cnt_genFU, if_pos ⟨rfl, rfl⟩, hcur]

theorem inv_step (plan : List PlanSection) (m : Nat) (ctx : Ctx) (evs : List Ev)
    (h : FUInv plan m ctx evs) :
    FUInv plan m (processCandidateInput plan allFollowUp ctx).1
      (evs ++ (processCandidateInput plan allFollowUp ctx).2) := by
  have hni := h.noInstr
  rcases h.stateOk with hst | hst | hst
  · have hL := h.listenOk hst
    have hproc : processCandidateInput plan allFollowUp ctx =
        handleQuestionResponse plan allFollowUp ctx := by
      simp [processCandidateInput, hni, hst]
    rw [hproc]
    cases hq : getCurrentQuestion plan ctx
    case none =>
      have hh : handleQuestionResponse plan allFollowUp ctx = closeInterview ctx := by
        simp [handleQuestionResponse, hq]
      rw [hh]
      exact inv_close plan m ctx evs h.bound h.future h.maxEq hni
    case some qtext =>
      by_cases hm0 : ctx.followUpCount < ctx.maxFollowUps
      · have hh : handleQuestionResponse plan allFollowUp ctx = generateFollowUp ctx := by
          simp [handleQuestionResponse, hq, allFollowUp, hm0]
        rw [hh]
        exact inv_genFU plan m ctx evs h.bound h.future (by rw [hL.2, hL.1])
          (h.maxEq ▸ hm0) (by simp [hq]) h.maxEq hni
      · have hh : handleQuestionResponse plan allFollowUp ctx = moveToNextQuestion plan ctx := by
          simp [handleQuestionResponse, hq, allFollowUp, hm0]
        rw [hh]
        exact inv_move plan m ctx evs h.bound h.future h.maxEq hni
  · have hF := h.fuOk hst
    have hproc : processCandidateInput plan allFollowUp ctx =
        handleFollowupResponse plan allFollowUp ctx := by
      simp [processCandidateInput, hni, hst]
    rw [hproc]
    by_cases hmax : ctx.maxFollowUps ≤ ctx.followUpCount + 1
    · have hh : handleFollowupResponse plan allFollowUp ctx =
          moveToNextQuestion plan {ctx with followUpCount := ctx.followUpCount + 1} := by
        simp [handleFollowupResponse, hmax]
      rw [hh]
      exact inv_move plan m {ctx with followUpCount := ctx.followUpCount + 1} evs
        h.bound h.future h.maxEq hni
    · obtain ⟨qtext, hq⟩ := Option.isSome_iff_exists.mp hF.2.2
      have hh : handleFollowupResponse plan allFollowUp ctx =
          generateFollowUp {ctx with followUpCount := ctx.followUpCount + 1} := by
        simp [handleFollowupResponse, hmax, getCurrentQuestion_fu, hq, allFollowUp]
      rw [hh]
      exact inv_genFU plan m {ctx with followUpCount := ctx.followUpCount + 1} evs
        h.bound h.future hF.2.1
        (show ctx.followUpCount + 1 < m by have hm1 := h.maxEq; omega)
        (by simp [getCurrentQuestion_fu, hq]) h.maxEq hni
  · have hproc : processCandidateInput plan allFollowUp ctx = (ctx, [Ev.sayGeneric]) := by
      simp [processCandidateInput, hni, hst]
    rw [hproc]
    refine ⟨?_, ?_, h.maxEq, hni, Or.inr (Or.inr hst), ?_, ?_⟩
    · intro s q
      rw [cntFU_append, cnt_generic]
      simpa using h.bound s q
    · intro s q hlex
      rw [cntFU_append, cnt_generic]
      simpa using h.future s q hlex
    · intro hL
      rw [hst] at hL
      simp at hL
    · intro hFU
      rw [hst] at hFU
      simp at hFU

theorem inv_run (plan : List PlanSection) (m : Nat) :
    ∀ (n : Nat) (ctx : Ctx) (evs : List Ev), FUInv plan m ctx evs →
      FUInv plan m (runInputs plan allFollowUp ctx n).1
        (evs ++ (runInputs plan allFollowUp ctx n).2) := by
  intro n
  induction n with
  | zero =>
    intro ctx evs h
    simpa [runInputs] using h
  | succ k ih =>
    intro ctx evs h
    have h2 := ih (processCandidateInput plan allFollowUp ctx).1
      (evs ++ (processCandidateInput plan allFollowUp ctx).2) (inv_step plan m ctx evs h)
    simpa [runInputs, List.append_assoc] using h2

theorem inv_init (plan : List PlanSection) (m : Nat) : FUInv plan m (initialCtx m) [] := by
  refine ⟨?_, ?_, rfl, rfl, Or.inl rfl, ?_, ?_⟩
  · intro s q
    simp [cntFU]
  · intro s q _
    simp [cntFU]
  · intro _
    exact ⟨rfl, by simp [cntFU]⟩
  · intro hFU
    simp [initialCtx] at hFU

theorem followup_bound (plan : List PlanSection) (m n s q : Nat) :
    cntFU (runInputs plan allFollowUp (initialCtx m) n).2 s q ≤ m := by
  have hh := (inv_run plan m n (initialCtx m) [] (inv_init plan m)).bound s q
  simpa using hh

/-- C6: for every plan, every `max_follow_ups` value `m` and every number of
candidate answers all classified needs-follow-up (starting from a freshly
posed main question with no supervisor instructions), the number of follow-up
questions posed for any single question `(s, q)` never exceeds `m`; moreover
posing a main question resets `follow_up_count` to zero, and once the
incremented count reaches `max_follow_ups`, `_handle_followup_response`
advances to the next question regardless of the analysis result. -/
theorem c6_followup_bound :
    (∀ (plan : List PlanSection) (m n s q : Nat),
      cntFU (runInputs plan allFollowUp (initialCtx m) n).2 s q ≤ m) ∧
    (∀ (plan : List PlanSection) (ctx : Ctx) (t : String),
      getCurrentQuestion plan ctx = some t →
      (askCurrentQuestion plan ctx).1.followUpCount = 0) ∧
    (∀ (plan : List PlanSection) (a : Analysis) (ctx : Ctx),
      ctx.maxFollowUps ≤ ctx.followUpCount + 1 →
      handleFollowupResponse plan a ctx =
        moveToNextQuestion plan {ctx with followUpCount := ctx.followUpCount + 1}) := by
  refine ⟨followup_bound, ?_, ?_⟩
  · intro plan ctx t hq
    simp [askCurrentQuestion, hq]
  · intro plan a ctx hmax
    simp [handleFollowupResponse, hmax]

/-- The specification's scenario plan: 2 sections holding 2 and 1 questions. -/
def plan2 : List PlanSection := [⟨"A", ["q1", "q2"]⟩, ⟨"B", ["q3"]⟩]

/-- Witness for `c6_followup_bound`: the reset and the forced advancement at
the bound, instantiated on the concrete two-section plan. -/
theorem c6_followup_bound_witness :
    getCurrentQuestion plan2 (initialCtx 2) = some "q1" ∧
      (askCurrentQuestion plan2 (initialCtx 2)).1.followUpCount = 0 ∧
      (2 : Nat) ≤ 1 + 1 ∧
      handleFollowupResponse plan2 allFollowUp ⟨.followingUp, 0, 0, 1, 2, []⟩ =
        moveToNextQuestion plan2 {(⟨.followingUp, 0, 0, 1, 2, []⟩ : Ctx) with followUpCount := 2} :=
  ⟨rfl, c6_followup_bound.2.1 plan2 (initialCtx 2) "q1" rfl, by decide,
    c6_followup_bound.2.2 plan2 allFollowUp ⟨.followingUp, 0, 0, 1, 2, []⟩ (by decide)⟩

theorem noInterv_mem_close (c : Ctx) : Ev.sayIntervention ∉ (closeInterview c).2 := by
  simp [closeInterview]

theorem noInterv_mem_ask (plan : List PlanSection) (c : Ctx) :
    Ev.sayIntervention ∉ (askCurrentQuestion plan c).2 := by
  unfold askCurrentQuestion
  split
  · exact noInterv_mem_close c
  · simp

theorem noInterv_mem_move (plan : List PlanSection) (c : Ctx) :
    Ev.sayIntervention ∉ (moveToNextQuestion plan c).2 := by
  unfold moveToNextQuestion
  intro hmem
  split at hmem
  · split at hmem
    · split at hmem
      · simp only [List.mem_cons] at hmem
        rcases hmem with h | h
        · exact absurd h (by simp)
        · exact noInterv_mem_ask _ _ h
      · exact noInterv_mem_ask _ _ hmem
    · exact noInterv_mem_ask _ _ hmem
  · exact noInterv_mem_ask _ _ hmem

theorem ask_instrs (plan : List PlanSection) (c : Ctx) :
    (askCurrentQuestion plan c).1.supervisorInstructions = c.supervisorInstructions := by
  unfold askCurrentQuestion
  split
  · simp [closeInterview]
  · simp

theorem move_instrs (plan : List PlanSection) (c : Ctx) :
    (moveToNextQuestion plan c).1.supervisorInstructions = c.supervisorInstructions := by
  unfold moveToNextQuestion
  split
  · split
    · split
      · simp [ask_instrs]
      · simp [ask_instrs]
    · simp [ask_instrs]
  · simp [ask_instrs]

/-- C7 (amended): whenever the supervisor-instruction queue is non-empty,
processing the next candidate input first handles a supervisor intervention —
the processing step's first recorded event is the transition to
`SupervisorIntervention` and exactly one intervention utterance is produced —
but the instruction used is the MOST RECENTLY queued one
(`supervisor_instructions[-1]`, not the FIFO head), and the ENTIRE queue is
cleared afterwards (every pending entry, not only the consumed one).  Routing
follows the latest instruction: move-on/skip intents force advancement via
`_move_to_next_question`, deeper-probing intents force `FollowingUp`, anything
else returns to `Listening`. -/
theorem c7_supervisor_amended (plan : List PlanSection) (a : Analysis) (ctx : Ctx)
    (instr : List IntentTok) (rest : List (List IntentTok))
    (h : ctx.supervisorInstructions = rest ++ [instr]) :
    (processCandidateInput plan a ctx).2.head? =
      some (.stateChange .supervisorIntervention) ∧
    (processCandidateInput plan a ctx).2.count Ev.sayIntervention = 1 ∧
    (processCandidateInput plan a ctx).1.supervisorInstructions = [] ∧
    ((instr.contains IntentTok.nextQuestionTok || instr.contains IntentTok.skipTok) = true →
      processCandidateInput plan a ctx =
        ((moveToNextQuestion plan
            {ctx with currentState := .supervisorIntervention, supervisorInstructions := []}).1,
         Ev.stateChange .supervisorIntervention :: Ev.sayIntervention ::
           (moveToNextQuestion plan
             {ctx with currentState := .supervisorIntervention, supervisorInstructions := []}).2)) ∧
    ((instr.contains IntentTok.nextQuestionTok || instr.contains IntentTok.skipTok) = false →
      (instr.contains IntentTok.deepTok || instr.contains IntentTok.probeTok) = true →
      processCandidateInput plan a ctx =
        ({ctx with currentState := .followingUp, supervisorInstructions := []},
         [.stateChange .supervisorIntervention, .sayIntervention, .stateChange .followingUp])) ∧
    ((instr.contains IntentTok.nextQuestionTok || instr.contains IntentTok.skipTok) = false →
      (instr.contains IntentTok.deepTok || instr.contains IntentTok.probeTok) = false →
      processCandidateInput plan a ctx =
        ({ctx with currentState := .listening, supervisorInstructions := []},
         [.stateChange .supervisorIntervention, .sayIntervention, .stateChange .listening])) := by
  have hne : ctx.supervisorInstructions ≠ [] := by
    rw [h]
    simp
  have hlast : ctx.supervisorInstructions.getLast? = some instr := by
    rw [h]
    simp
  have hproc : processCandidateInput plan a ctx = handleSupervisorIntervention plan ctx := by
    simp [processCandidateInput, hne]
  rw [hproc]
  simp only [handleSupervisorIntervention, hlast]
  by_cases hskip : (instr.contains IntentTok.nextQuestionTok ||
      instr.contains IntentTok.skipTok) = true
  · rw [if_pos hskip]
    refine ⟨rfl, ?_, ?_, fun _ => rfl, ?_, ?_⟩
    · rw [List.count_cons, List.count_cons]
      rw [List.count_eq_zero.mpr (noInterv_mem_move plan _)]
      simp
    · simp [move_instrs]
    · intro hc
      rw [hskip] at hc
      simp at hc
    · intro hc
      rw [hskip] at hc
      simp at hc
  · rw [if_neg hskip]
    by_cases hdeep : (instr.contains IntentTok.deepTok ||
        instr.contains IntentTok.probeTok) = true
    · rw [if_pos hdeep]
      refine ⟨rfl, by simp, rfl, ?_, fun _ _ => rfl, ?_⟩
      · intro hc
        exact absurd hc hskip
      · intro _ hc
        rw [hdeep] at hc
        simp at hc
    · rw [if_neg hdeep]
      refine ⟨rfl, by simp, rfl, ?_, ?_, fun _ _ => rfl⟩
      · intro hc
        exact absurd hc hskip
      · intro _ hc
        simp at hdeep
        exact absurd hc (by simp [hdeep])

theorem getCurrentQuestion_eq (plan : List PlanSection) (ctx : Ctx) (sec : PlanSection)
    (hsec : getCurrentSection plan ctx = some sec) :
    getCurrentQuestion plan ctx = sec.questions.get? ctx.currentQuestionIndex := by
  unfold getCurrentQuestion
  rw [hsec]

theorem getCurrentQuestion_none (plan : List PlanSection) (ctx : Ctx)
    (hsec : getCurrentSection plan ctx = none) :
    getCurrentQuestion plan ctx = none := by
  unfold getCurrentQuestion
  rw [hsec]

/-- C8: advancing increments the question index within the current section;
exhausting a section's questions increments the section index, resets the
question index to zero and emits a transition utterance before the next
question; exhausting all sections drives the state machine through `CLOSING`
(emitting the wrap-up) into `COMPLETED`.  In particular, on a plan of 2
sections holding 2 and 1 questions, three consecutive advance decisions from
(section 0, question 0) reach `Closing`. -/
theorem c8_question_advancement :
    (∀ (plan : List PlanSection) (ctx : Ctx) (sec : PlanSection) (t : String),
      getCurrentSection plan
          {ctx with currentQuestionIndex := ctx.currentQuestionIndex + 1} = some sec →
      sec.questions.get? (ctx.currentQuestionIndex + 1) = some t →
      moveToNextQuestion plan ctx =
        ({ctx with currentState := .listening, currentQuestionIndex := ctx.currentQuestionIndex + 1, followUpCount := 0},
         [.stateChange .listening,
          .sayMainQuestion ctx.currentSectionIndex (ctx.currentQuestionIndex + 1)])) ∧
    (∀ (plan : List PlanSection) (ctx : Ctx) (sec sec2 : PlanSection) (t : String),
      getCurrentSection plan
          {ctx with currentQuestionIndex := ctx.currentQuestionIndex + 1} = some sec →
      sec.questions.length ≤ ctx.currentQuestionIndex + 1 →
      plan.get? (ctx.currentSectionIndex + 1) = some sec2 →
      sec2.questions.get? 0 = some t →
      moveToNextQuestion plan ctx =
        ({ctx with currentState := .listening, currentSectionIndex := ctx.currentSectionIndex + 1, currentQuestionIndex := 0, followUpCount := 0},
         [.saySectionTransition (ctx.currentSectionIndex + 1), .stateChange .listening,
          .sayMainQuestion (ctx.currentSectionIndex + 1) 0])) ∧
    (∀ (plan : List PlanSection) (ctx : Ctx) (sec : PlanSection),
      getCurrentSection plan
          {ctx with currentQuestionIndex := ctx.currentQuestionIndex + 1} = some sec →
      sec.questions.length ≤ ctx.currentQuestionIndex + 1 →
      plan.length ≤ ctx.currentSectionIndex + 1 →
      moveToNextQuestion plan ctx =
        ({ctx with currentState := .completed, currentSectionIndex := ctx.currentSectionIndex + 1, currentQuestionIndex := 0},
         [.stateChange .closing, .sayClosing, .stateChange .completed])) ∧
    (moveToNextQuestion plan2 (initialCtx 2) =
      (⟨.listening, 1, 0, 0, 2, []⟩, [.stateChange .listening, .sayMainQuestion 0 1]) ∧
     moveToNextQuestion plan2 ⟨.listening, 1, 0, 0, 2, []⟩ =
      (⟨.listening, 0, 1, 0, 2, []⟩,
       [.saySectionTransition 1, .stateChange .listening, .sayMainQuestion 1 0]) ∧
     moveToNextQuestion plan2 ⟨.listening, 0, 1, 0, 2, []⟩ =
      (⟨.completed, 0, 2, 0, 2, []⟩,
       [.stateChange .closing, .sayClosing, .stateChange .completed]) ∧
     Ev.stateChange .closing ∈ (moveToNextQuestion plan2 ⟨.listening, 0, 1, 0, 2, []⟩).2) := by
  refine ⟨?_, ?_, ?_, rfl, rfl, rfl, by decide⟩
  · intro plan ctx sec t hsec ht
    have hlen : ctx.currentQuestionIndex + 1 < sec.questions.length := by
      by_contra hco
      rw [List.get?_eq_none.mpr (by omega)] at ht
      exact Option.noConfusion ht
    rw [move_eq_same plan ctx sec hsec hlen]
    have hq1 : getCurrentQuestion plan
        {ctx with currentQuestionIndex := ctx.currentQuestionIndex + 1} = some t := by
      rw [getCurrentQuestion_eq plan _ sec hsec]
      exact ht
    simp [askCurrentQuestion, hq1]
  · intro plan ctx sec sec2 t hsec hlen hsec2 ht
    have hmore : ctx.currentSectionIndex + 1 < plan.length := by
      by_contra hco
      rw [List.get?_eq_none.mpr (by omega)] at hsec2
      exact Option.noConfusion hsec2
    rw [move_eq_next plan ctx sec hsec hlen hmore]
    have hq1 : getCurrentQuestion plan
        {ctx with currentSectionIndex := ctx.currentSectionIndex + 1, currentQuestionIndex := 0} = some t := by
      have hsecc2 : getCurrentSection plan {ctx with currentSectionIndex := ctx.currentSectionIndex + 1, currentQuestionIndex := 0} = some sec2 := hsec2
      rw [getCurrentQuestion_eq plan _ sec2 hsecc2]
      exact ht
    simp [askCurrentQuestion, hq1]
  · intro plan ctx sec hsec hlen hlast
    rw [move_eq_exhaust plan ctx sec hsec hlen (by omega)]
    have hq1 : getCurrentQuestion plan
        {ctx with currentSectionIndex := ctx.currentSectionIndex + 1, currentQuestionIndex := 0} = none := by
      have hsecc : getCurrentSection plan {ctx with currentSectionIndex := ctx.currentSectionIndex + 1, currentQuestionIndex := 0} = none :=
        List.get?_eq_none.mpr hlast
      rw [getCurrentQuestion_none plan _ hsecc]
    simp [askCurrentQuestion, hq1, closeInterview]

def skipCtx : Ctx := ⟨.listening, 0, 0, 0, 2, [[IntentTok.skipTok], [IntentTok.otherTok]]⟩

/-- C7, counterexample: with the queue holding first an instruction with a
skip intent and then one with no intent, the FIFO reading of the claim
predicts advancement (question index 1) driven by the first entry and removal
of only that entry; the code instead processes the LAST entry, stays at
question index 0 in `Listening`, and empties the whole queue. -/
theorem c7_fifo_counterexample :
    (processCandidateInput plan2 allFollowUp skipCtx).1.currentState = .listening ∧
    (processCandidateInput plan2 allFollowUp skipCtx).1.currentQuestionIndex = 0 ∧
    (processCandidateInput plan2 allFollowUp skipCtx).1.supervisorInstructions = [] ∧
    (0 : Nat) ≠ 1 := by
  refine ⟨rfl, rfl, rfl, by decide⟩

/-- A context whose supervisor queue holds exactly one intent-free
instruction. -/
def oneInstrCtx : Ctx := ⟨.listening, 0, 0, 0, 2, [[IntentTok.otherTok]]⟩

/-- Witness for `c7_supervisor_amended`: one queued intent-free instruction is
drained with exactly one intervention utterance and a return to listening. -/
theorem c7_supervisor_amended_witness :
    oneInstrCtx.supervisorInstructions = [] ++ [[IntentTok.otherTok]] ∧
      (processCandidateInput plan2 allFollowUp oneInstrCtx).2.head? =
        some (.stateChange .supervisorIntervention) ∧
      (processCandidateInput plan2 allFollowUp oneInstrCtx).2.count Ev.sayIntervention = 1 ∧
      (processCandidateInput plan2 allFollowUp oneInstrCtx).1.supervisorInstructions = [] :=
  ⟨rfl, (c7_supervisor_amended plan2 allFollowUp oneInstrCtx [IntentTok.otherTok] [] rfl).1,
    (c7_supervisor_amended plan2 allFollowUp oneInstrCtx [IntentTok.otherTok] [] rfl).2.1,
    (c7_supervisor_amended plan2 allFollowUp oneInstrCtx [IntentTok.otherTok] [] rfl).2.2.1⟩

/-- Witness for `c8_question_advancement`: the three advancement shapes
instantiated on the concrete two-section plan. -/
theorem c8_question_advancement_witness :
    moveToNextQuestion plan2 (initialCtx 2) =
      ({(initialCtx 2) with currentState := .listening, currentQuestionIndex := 0 + 1, followUpCount := 0},
       [.stateChange .listening, .sayMainQuestion 0 (0 + 1)]) ∧
    moveToNextQuestion plan2 ⟨.listening, 1, 0, 0, 2, []⟩ =
      ({(⟨.listening, 1, 0, 0, 2, []⟩ : Ctx) with currentState := .listening, currentSectionIndex := 0 + 1, currentQuestionIndex := 0, followUpCount := 0},
       [.saySectionTransition (0 + 1), .stateChange .listening, .sayMainQuestion (0 + 1) 0]) ∧
    moveToNextQuestion plan2 ⟨.listening, 0, 1, 0, 2, []⟩ =
      ({(⟨.listening, 0, 1, 0, 2, []⟩ : Ctx) with currentState := .completed, currentSectionIndex := 1 + 1, currentQuestionIndex := 0},
       [.stateChange .closing, .sayClosing, .stateChange .completed]) :=
  ⟨c8_question_advancement.1 plan2 (initialCtx 2) ⟨"A", ["q1", "q2"]⟩ "q2" rfl rfl,
    c8_question_advancement.2.1 plan2 ⟨.listening, 1, 0, 0, 2, []⟩ ⟨"A", ["q1", "q2"]⟩
      ⟨"B", ["q3"]⟩ "q3" rfl (by decide) rfl rfl,
    c8_question_advancement.2.2.1 plan2 ⟨.listening, 0, 1, 0, 2, []⟩ ⟨"B", ["q3"]⟩
      rfl (by decide) (by decide)⟩

end InterviewAgent
